import Mathlib

/-!
Shallow embedding of the `javanevisan` Express server (`src/server.js` and its
mail-enabled variant `src/unnamed/part_000`): a small business-site backend with
visit tracking, a contact-form submission API, a session-gated admin area with a
landing-page editor, and a stats endpoint.  Database tables are modelled as
Lean lists, the session as an optional authenticated-username marker, request
bodies as optional strings plus a JavaScript-value type for the polymorphic
`services` field, and fallible I/O (the SQLite insert, the landing-file read)
as `Except` over explicit failure flags.
-/

namespace Javanevisan

/-- `const ADMIN_USERNAME = 'admin'` (server.js line 63). -/
def ADMIN_USERNAME : String := "admin"

/-- `const ADMIN_PASSWORD = 'erfan9028@'` (server.js line 64). -/
def ADMIN_PASSWORD : String := "erfan9028@"

/-- A row of the `admins` table: `username TEXT PRIMARY KEY, password TEXT`. -/
structure AdminCredential where
  username : String
  password : String
deriving Repr, DecidableEq

/-- A row of the `visits` table: `ip, ua, path` TEXT plus `ts` defaulting to the
server clock.  Only the calendar-date component of `ts` is observable through
the queries (`date(ts)`), so `day` models `date(ts)` as an abstract ordered
calendar date. -/
structure Visit where
  ip : String
  ua : String
  path : String
  day : Nat
deriving Repr, DecidableEq

/-- A row of the `submissions` table (the autoincrement id and `created_at`
default are managed by the store and not observed by the claims). -/
structure Submission where
  name : String
  phone : String
  email : String
  services : String
  message : String
  customer_number : String
  submission_date : String
deriving Repr, DecidableEq

/-- The persistent store: the three application tables. -/
structure ServerState where
  submissions : List Submission
  visits : List Visit
  admins : List AdminCredential
deriving Repr, DecidableEq

/-- Session state: `req.session.user`, absent (`none`) until a login sets it. -/
structure Session where
  user : Option String
deriving Repr, DecidableEq

/-- A JavaScript value, as far as the `services` field of a submit body can
range over JSON bodies: absent (`undefined`), `null`, a string, a number, a
boolean, an array of strings, or some other object. -/
inductive JsVal where
  | undef
  | null
  | str (s : String)
  | num (n : Int)
  | boolean (b : Bool)
  | arr (xs : List String)
  | obj
deriving Repr, DecidableEq

/-- JavaScript truthiness: `undefined`, `null`, `""`, `0` and `false` are
falsy; every array (even empty) and object is truthy. -/
def JsVal.truthy : JsVal → Bool
  | .undef => false
  | .null => false
  | .str s => !(s = "")
  | .num n => !(n = 0)
  | .boolean b => b
  | .arr _ => true
  | .obj => true

/-- The runtime error a submit request can raise: calling `.join` on a value
that is neither wrapped into nor already an array (`TypeError`). -/
inductive JsError where
  | typeError
deriving Repr, DecidableEq

/-- `let services = req.body.services || []; if (typeof services === 'string')
services = [services]; const servicesCsv = services.join(', ')`
(server.js lines 165-169).  A falsy value is replaced by `[]`; a string is
wrapped into a one-element array; `.join(', ')` succeeds only on arrays and
throws a `TypeError` otherwise. -/
def normalizeServices (v : JsVal) : Except JsError String :=
  let services := if v.truthy then v else JsVal.arr []
  match services with
  | JsVal.str s => Except.ok (String.intercalate ", " [s])
  | JsVal.arr xs => Except.ok (String.intercalate ", " xs)
  | _ => Except.error JsError.typeError

/-- The documented shapes of the `services` field (absent, single string, or
list of strings), each mapped to the list of selected services the spec says
it denotes.  Other shapes are undocumented and yield `none`. -/
def servicesList : JsVal → Option (List String)
  | JsVal.undef => some []
  | JsVal.str s => some [s]
  | JsVal.arr xs => some xs
  | _ => none

/-- `x || ''` for an optional string field of the request body
(server.js line 175). -/
def orEmpty : Option String → String
  | none => ""
  | some s => s

/-- `s.slice(-6)`: the last six characters of `s`, or all of `s` when it is
shorter than six characters. -/
def lastSix (s : String) : String :=
  String.mk (s.data.drop (s.data.length - 6))

/-- `'JN' + Date.now().toString().slice(-6)` (server.js line 171), with `now`
the millisecond epoch timestamp read during the request. -/
def customerNumber (now : Nat) : String :=
  "JN" ++ lastSix (toString now)

/-- The JSON body of the submit request, with the four free-text fields
optional strings and `services` an arbitrary JavaScript value. -/
structure SubmitBody where
  name : Option String
  phone : Option String
  email : Option String
  message : Option String
  services : JsVal
deriving Repr, DecidableEq

/-- The JSON acknowledgment `{ ok: true, customerNumber, submissionDate }`. -/
structure SubmitResponse where
  ok : Bool
  customerNumber : String
  submissionDate : String
deriving Repr, DecidableEq

/-- The `POST /api/submit` handler (server.js lines 162-178): normalize the
services field (this may throw, in which case nothing is inserted and no
response is produced), generate the customer reference from the current
timestamp `now` and the localized date string `dateStr`, insert the submission
row with absent text fields defaulted to `''`, and answer with the JSON
acknowledgment. -/
def submitHandler (body : SubmitBody) (now : Nat) (dateStr : String)
    (st : ServerState) : Except JsError (ServerState × SubmitResponse) :=
  match normalizeServices body.services with
  | Except.error e => Except.error e
  | Except.ok servicesCsv =>
    let cn := customerNumber now
    let row : Submission :=
      { name := orEmpty body.name
        phone := orEmpty body.phone
        email := orEmpty body.email
        services := servicesCsv
        message := orEmpty body.message
        customer_number := cn
        submission_date := dateStr }
    Except.ok
      ({ st with submissions := st.submissions ++ [row] },
       { ok := true, customerNumber := cn, submissionDate := dateStr })

/-- An inbound HTTP request as the visit middleware observes it. -/
structure Request where
  path : String
  xForwardedFor : Option String
  userAgent : Option String
  remoteAddress : Option String
deriving Repr, DecidableEq

/-- JavaScript `s.startsWith(pre)`: `pre` is a prefix of the character
sequence of `s`. -/
def startsWithStr (s pre : String) : Bool :=
  pre.data.isPrefixOf s.data

/-- JavaScript `h.split(',')[0]`: the characters of `h` before its first
comma (all of `h` when it has none). -/
def beforeFirstComma (h : String) : String :=
  String.mk (h.data.takeWhile (fun c => !(c = ',')))

/-- `req.headers['x-forwarded-for']?.toString().split(',')[0] ||
req.socket.remoteAddress || 'unknown'` (server.js line 87): the first
comma-separated entry of the forwarded-for header when it is present and
nonempty, else the socket address when present and nonempty, else
`'unknown'`. -/
def clientIp (req : Request) : String :=
  let fwdFirst : Option String :=
    match req.xForwardedFor with
    | some h =>
      let first := beforeFirstComma h
      if first = "" then none else some first
    | none => none
  match fwdFirst with
  | some f => f
  | none =>
    match req.remoteAddress with
    | some a => if a = "" then "unknown" else a
    | none => "unknown"

/-- `req.headers['user-agent'] || 'unknown'` (server.js line 88). -/
def userAgentOf (req : Request) : String :=
  match req.userAgent with
  | some u => if u = "" then "unknown" else u
  | none => "unknown"

/-- The failure an SQLite insert can raise (disk full, locked database, ...);
`better-sqlite3`'s `run` is synchronous and throws it. -/
inductive DbError where
  | insertFailed
deriving Repr, DecidableEq

/-- The visit-tracking middleware (server.js lines 85-92).  Admin and API
paths are passed through untouched.  Otherwise a visit row is inserted with
the extracted ip, user-agent and `req.path || '/'`; the insert is not guarded
by any try/catch, so when it throws (modelled by `insertOk = false`) the
exception propagates and `next()` is never reached.  The boolean in the result
records that `next()` was called, i.e. that the request proceeds to the next
handler. -/
def visitMiddleware (req : Request) (today : Nat) (insertOk : Bool)
    (st : ServerState) : Except DbError (ServerState × Bool) :=
  if startsWithStr req.path "/admin" || startsWithStr req.path "/api" then
    Except.ok (st, true)
  else
    let ip := clientIp req
    let ua := userAgentOf req
    let pathStr := if req.path = "" then "/" else req.path
    if insertOk then
      Except.ok
        ({ st with visits := st.visits ++ [⟨ip, ua, pathStr, today⟩] }, true)
    else
      Except.error DbError.insertFailed

/-- `req.session?.user === ADMIN_USERNAME` (server.js line 103). -/
def requireAuth (sess : Session) : Bool :=
  sess.user = some ADMIN_USERNAME

/-- The admin-gated endpoints: every admin view plus the stats API
(server.js lines 122-187). -/
inductive AdminRoute where
  | dashboard
  | submissionsView
  | visitsView
  | editorGet
  | editorPost
  | logout
  | apiStats
deriving Repr, DecidableEq

/-- Outcome of dispatching a gated route: either the route's own handler ran,
or `requireAuth` redirected to the login page and the handler never ran. -/
inductive GateOutcome where
  | handled (r : AdminRoute)
  | redirect (loc : String)
deriving Repr, DecidableEq

/-- Dispatch of a gated route through the `requireAuth` middleware
(server.js lines 102-105): the handler runs only when the session marker
equals the fixed admin username, otherwise the client is redirected to
`/admin/login`. -/
def dispatchGated (r : AdminRoute) (sess : Session) : GateOutcome :=
  if requireAuth sess then GateOutcome.handled r
  else GateOutcome.redirect "/admin/login"

/-- `SELECT * FROM admins WHERE username = ?` followed by `.get`
(server.js line 114): the first row whose username matches. -/
def findAdmin (admins : List AdminCredential) (u : String) :
    Option AdminCredential :=
  admins.find? (fun r => r.username = u)

/-- The response of the login handler: a redirect to the dashboard, or a 401
re-render of the login view with the localized error message. -/
inductive LoginResult where
  | redirect (loc : String)
  | renderLogin (status : Nat) (errMsg : String)
deriving Repr, DecidableEq

/-- The `POST /admin/login` handler (server.js lines 112-120): look the
submitted username up in `admins`; on an exact password match set
`req.session.user = ADMIN_USERNAME` and redirect to `/admin`; otherwise
answer 401 and re-render the login view with the Persian error message,
leaving the session untouched. -/
def loginHandler (username password : String) (st : ServerState)
    (sess : Session) : Session × LoginResult :=
  match findAdmin st.admins username with
  | some row =>
    if row.password = password then
      ({ sess with user := some ADMIN_USERNAME },
       LoginResult.redirect "/admin")
    else
      (sess, LoginResult.renderLogin 401 "نام کاربری یا رمز عبور نادرست است")
  | none =>
    (sess, LoginResult.renderLogin 401 "نام کاربری یا رمز عبور نادرست است")

/-- The startup seed `INSERT OR REPLACE INTO admins (username, password)
VALUES ('admin', 'erfan9028@')` (server.js lines 65-66): the row keyed by the
fixed admin username is replaced, every other row is kept. -/
def seedAdmin (admins : List AdminCredential) : List AdminCredential :=
  (admins.filter (fun r => !(r.username = ADMIN_USERNAME))) ++
    [⟨ADMIN_USERNAME, ADMIN_PASSWORD⟩]

/-- Number of visits on calendar date `d`:
`COUNT(*) ... WHERE date(ts) = d`. -/
def countDay (vs : List Visit) (d : Nat) : Nat :=
  (vs.filter (fun v => v.day = d)).length

/-- Number of visits whose path is `p`: `COUNT(*) ... WHERE path = p`. -/
def countPath (vs : List Visit) (p : String) : Nat :=
  (vs.filter (fun v => v.path = p)).length

/-- `SELECT date(ts) as day, COUNT(*) as visits FROM visits GROUP BY date(ts)
ORDER BY day DESC LIMIT 30` (server.js line 182): the distinct visit dates,
sorted descending, the 30 greatest kept, each paired with its count. -/
def byDayQuery (vs : List Visit) : List (Nat × Nat) :=
  ((((vs.map Visit.day).dedup).mergeSort (fun a b => decide (b ≤ a))).take 30).map
    (fun d => (d, countDay vs d))

/-- `SELECT path, COUNT(*) as visits FROM visits GROUP BY path ORDER BY
visits DESC` (server.js line 183): one pair per distinct path, sorted
descending by count. -/
def byPathQuery (vs : List Visit) : List (String × Nat) :=
  (((vs.map Visit.path).dedup).map (fun p => (p, countPath vs p))).mergeSort
    (fun a b => decide (b.2 ≤ a.2))

/-- The JSON body of `GET /api/stats`. -/
structure StatsResponse where
  total : Nat
  today : Nat
  byDay : List (Nat × Nat)
  byPath : List (String × Nat)
deriving Repr, DecidableEq

/-- The gated `GET /api/stats` handler body (server.js lines 181-187), with
`nowDay` the server's current calendar date (`date('now')`). -/
def statsHandler (vs : List Visit) (nowDay : Nat) : StatsResponse :=
  { total := vs.length
    today := countDay vs nowDay
    byDay := byDayQuery vs
    byPath := byPathQuery vs }

/-- The failure a landing-file read can raise (file absent, I/O error). -/
inductive IoError where
  | readFailed
deriving Repr, DecidableEq

/-- `fs.readFileSync(filePath, 'utf8')` on the landing file: the file either
is absent (`none`), or is present and the read may still fail
(`readOk = false`). -/
def readLandingFile (file : Option String) (readOk : Bool) :
    Except IoError String :=
  match file with
  | none => Except.error IoError.readFailed
  | some c => if readOk then Except.ok c else Except.error IoError.readFailed

/-- The gated `GET /admin/editor` handler body (server.js lines 147-152):
`let content = ''; try { content = fs.readFileSync(...) } catch (e) {}` —
the rendered content is the file's text, or `''` when the read fails. -/
def editorGet (file : Option String) (readOk : Bool) : String :=
  match readLandingFile file readOk with
  | Except.ok c => c
  | Except.error _ => ""

/-- Result of the editor POST: the landing file afterwards and the
redirect location. -/
structure EditorPostResult where
  file : Option String
  redirect : String
deriving Repr, DecidableEq

/-- The gated `POST /admin/editor` handler body (server.js lines 154-159):
`fs.writeFileSync(filePath, content, 'utf8')` overwrites the landing file with
the submitted content verbatim, then redirects back to the editor view. -/
def editorPost (content : String) (_oldFile : Option String) :
    EditorPostResult :=
  { file := some content, redirect := "/admin/editor" }

/-- C4: a request whose path does not begin with `/admin` or `/api` inserts
exactly one Visit row, whose `path` field is the request path verbatim; a
request whose path begins with `/admin` or `/api` inserts no Visit row
(regardless of whether the insert would succeed). -/
theorem visit_row_per_request (req : Request) (today : Nat) (insertOk : Bool)
    (st : ServerState) (hne : req.path ≠ "") :
    (startsWithStr req.path "/admin" = false →
     startsWithStr req.path "/api" = false →
      visitMiddleware req today true st =
        Except.ok ({ st with visits := st.visits ++
          [⟨clientIp req, userAgentOf req, req.path, today⟩] }, true)) ∧
    ((startsWithStr req.path "/admin" = true ∨
      startsWithStr req.path "/api" = true) →
      visitMiddleware req today insertOk st = Except.ok (st, true)) := by
  constructor
  · intro h1 h2
    simp [visitMiddleware, h1, h2, hne]
  · intro h
    rcases h with h | h <;> simp [visitMiddleware, h]

/-- Witness for C4 at a tracked path and at an excluded admin path. -/
theorem visit_row_per_request_witness :
    visitMiddleware ⟨"/contact", none, some "UA", none⟩ 7 true ⟨[], [], []⟩ =
      Except.ok (⟨[], [⟨"unknown", "UA", "/contact", 7⟩], []⟩, true) ∧
    visitMiddleware ⟨"/admin", none, none, none⟩ 7 false ⟨[], [], []⟩ =
      Except.ok (⟨[], [], []⟩, true) :=
  ⟨(visit_row_per_request ⟨"/contact", none, some "UA", none⟩ 7 true
      ⟨[], [], []⟩ (by decide)).1 (by decide) (by decide),
   (visit_row_per_request ⟨"/admin", none, none, none⟩ 7 false
      ⟨[], [], []⟩ (by decide)).2 (Or.inl (by decide))⟩

/-- C6: a gated route's handler runs exactly when the session's
authenticated-username marker equals the fixed admin username; in every other
session state the response is a redirect to the login page and the handler
does not run. -/
theorem admin_gate_iff (r : AdminRoute) (sess : Session) :
    (dispatchGated r sess = GateOutcome.handled r ↔
      sess.user = some ADMIN_USERNAME) ∧
    (sess.user ≠ some ADMIN_USERNAME →
      dispatchGated r sess = GateOutcome.redirect "/admin/login") := by
  by_cases h : sess.user = some ADMIN_USERNAME <;>
    simp [dispatchGated, requireAuth, h]

/-- Witness for C6: an authenticated session reaches the dashboard handler,
an anonymous session is redirected from the stats API. -/
theorem admin_gate_iff_witness :
    dispatchGated AdminRoute.dashboard ⟨some "admin"⟩ =
      GateOutcome.handled AdminRoute.dashboard ∧
    dispatchGated AdminRoute.apiStats ⟨none⟩ =
      GateOutcome.redirect "/admin/login" :=
  ⟨(admin_gate_iff AdminRoute.dashboard ⟨some "admin"⟩).1.mpr rfl,
   (admin_gate_iff AdminRoute.apiStats ⟨none⟩).2 (by decide)⟩

/-- C8: the editor GET renders the landing file's raw contents, or the empty
string when the file is absent or the read fails (the error is swallowed);
the editor POST leaves the file equal to the submitted content verbatim and
redirects back to the editor view. -/
theorem editor_round_trip (file : Option String) (c content : String)
    (readOk : Bool) :
    (file = some c → readOk = true → editorGet file readOk = c) ∧
    (file = none ∨ readOk = false → editorGet file readOk = "") ∧
    (editorPost content file).file = some content ∧
    (editorPost content file).redirect = "/admin/editor" := by
  refine ⟨?_, ?_, rfl, rfl⟩
  · rintro rfl rfl
    rfl
  · rintro (rfl | rfl)
    · rfl
    · cases file <;> rfl

/-- Witness for C8: a present file is rendered verbatim, an absent file
renders as the empty string, and a POST overwrites the file. -/
theorem editor_round_trip_witness :
    editorGet (some "<h1>Hi</h1>") true = "<h1>Hi</h1>" ∧
    editorGet none true = "" ∧
    (editorPost "<h1>Hi</h1>" none).file = some "<h1>Hi</h1>" :=
  ⟨(editor_round_trip (some "<h1>Hi</h1>") "<h1>Hi</h1>" "" true).1 rfl rfl,
   (editor_round_trip none "" "" true).2.1 (Or.inl rfl),
   (editor_round_trip none "" "<h1>Hi</h1>" true).2.2.1⟩

/-- C5: `POST /admin/login` with a stored credential row matching the
submitted username whose password equals the submitted password by exact
string equality sets the session marker and redirects to the dashboard; on
any mismatch (no row, or unequal password) it answers 401, re-renders the
login view with the localized error message, and leaves the session
unchanged (an anonymous session stays anonymous). -/
theorem login_transition (u p : String) (st : ServerState) (sess : Session) :
    (∀ row, findAdmin st.admins u = some row → row.password = p →
      loginHandler u p st sess =
        (⟨some ADMIN_USERNAME⟩, LoginResult.redirect "/admin")) ∧
    (findAdmin st.admins u = none →
      loginHandler u p st sess =
        (sess, LoginResult.renderLogin 401 "نام کاربری یا رمز عبور نادرست است")) ∧
    (∀ row, findAdmin st.admins u = some row → row.password ≠ p →
      loginHandler u p st sess =
        (sess, LoginResult.renderLogin 401 "نام کاربری یا رمز عبور نادرست است")) := by
  refine ⟨?_, ?_, ?_⟩
  · intro row hrow hpw
    simp [loginHandler, hrow, hpw]
  · intro h
    simp [loginHandler, h]
  · intro row hrow hpw
    simp [loginHandler, hrow, hpw]

/-- Witness for C5 with the seeded credential: the correct password logs in,
a wrong password yields 401 and an unchanged anonymous session. -/
theorem login_transition_witness :
    loginHandler "admin" "erfan9028@" ⟨[], [], [⟨"admin", "erfan9028@"⟩]⟩ ⟨none⟩ =
      (⟨some ADMIN_USERNAME⟩, LoginResult.redirect "/admin") ∧
    loginHandler "admin" "wrong" ⟨[], [], [⟨"admin", "erfan9028@"⟩]⟩ ⟨none⟩ =
      (⟨none⟩, LoginResult.renderLogin 401 "نام کاربری یا رمز عبور نادرست است") :=
  ⟨(login_transition "admin" "erfan9028@" ⟨[], [], [⟨"admin", "erfan9028@"⟩]⟩
      ⟨none⟩).1 ⟨"admin", "erfan9028@"⟩ (by decide) rfl,
   (login_transition "admin" "wrong" ⟨[], [], [⟨"admin", "erfan9028@"⟩]⟩
      ⟨none⟩).2.2 ⟨"admin", "erfan9028@"⟩ (by decide) (by decide)⟩

/-- C9: a successful login stores the fixed constant admin username in the
session marker, never the submitted username, so any credential row in the
admins table (also a leftover row for another username) grants full admin
access; the marker value the login flow can ever store is the fixed admin
username; and the startup upsert replaces only the row keyed by the fixed
admin username, keeping every other row. -/
theorem session_marker_fixed :
    (∀ u p st sess row, findAdmin st.admins u = some row → row.password = p →
      (loginHandler u p st sess).1.user = some ADMIN_USERNAME ∧
      requireAuth (loginHandler u p st sess).1 = true) ∧
    (∀ u p st sess,
      (loginHandler u p st sess).1.user = sess.user ∨
      (loginHandler u p st sess).1.user = some ADMIN_USERNAME) ∧
    (∀ admins r, r ∈ admins → r.username ≠ ADMIN_USERNAME →
      r ∈ seedAdmin admins) := by
  refine ⟨?_, ?_, ?_⟩
  · intro u p st sess row hrow hpw
    simp [loginHandler, hrow, hpw, requireAuth]
  · intro u p st sess
    unfold loginHandler
    cases h : findAdmin st.admins u with
    | none => simp
    | some row =>
      by_cases hpw : row.password = p <;> simp [hpw]
  · intro admins r hmem hne
    unfold seedAdmin
    refine List.mem_append_left _ ?_
    refine List.mem_filter.mpr ⟨hmem, ?_⟩
    simp [hne]

/-- Witness for C9: a leftover credential row for a different username still
logs the session in as the fixed admin, and it survives the startup seed. -/
theorem session_marker_fixed_witness :
    (loginHandler "olduser" "pw" ⟨[], [], [⟨"olduser", "pw"⟩]⟩ ⟨none⟩).1.user =
      some ADMIN_USERNAME ∧
    requireAuth
      (loginHandler "olduser" "pw" ⟨[], [], [⟨"olduser", "pw"⟩]⟩ ⟨none⟩).1 =
      true ∧
    (⟨"olduser", "pw"⟩ : AdminCredential) ∈ seedAdmin [⟨"olduser", "pw"⟩] :=
  ⟨(session_marker_fixed.1 "olduser" "pw" ⟨[], [], [⟨"olduser", "pw"⟩]⟩ ⟨none⟩
      ⟨"olduser", "pw"⟩ (by decide) rfl).1,
   (session_marker_fixed.1 "olduser" "pw" ⟨[], [], [⟨"olduser", "pw"⟩]⟩ ⟨none⟩
      ⟨"olduser", "pw"⟩ (by decide) rfl).2,
   session_marker_fixed.2.2 [⟨"olduser", "pw"⟩] ⟨"olduser", "pw"⟩ (by decide)
      (by decide)⟩

/-- C10: a submit request whose `services` field is truthy but neither a
string nor an array makes the handler throw a `TypeError` at the `.join`
call, so the request fails and no Submission row is inserted. -/
theorem undocumented_services_throws (body : SubmitBody) (now : Nat)
    (dateStr : String) (st : ServerState)
    (htruthy : body.services.truthy = true)
    (hstr : ∀ s, body.services ≠ JsVal.str s)
    (harr : ∀ xs, body.services ≠ JsVal.arr xs) :
    submitHandler body now dateStr st = Except.error JsError.typeError := by
  have hns : normalizeServices body.services = Except.error JsError.typeError := by
    unfold normalizeServices
    cases hv : body.services with
    | str s => exact absurd hv (hstr s)
    | arr xs => exact absurd hv (harr xs)
    | undef => rw [hv] at htruthy; exact absurd htruthy (by decide)
    | null => rw [hv] at htruthy; exact absurd htruthy (by decide)
    | num n => rw [hv] at htruthy; simp [htruthy]
    | boolean b => rw [hv] at htruthy; simp [htruthy]
    | obj => rfl
  simp [submitHandler, hns]

/-- Witness for C10: a numeric `services` field is truthy, not a string, not
an array, and makes the handler fail with a `TypeError`; nothing is
inserted. -/
theorem undocumented_services_throws_witness :
    (JsVal.num 5).truthy = true ∧
    submitHandler ⟨none, none, none, none, JsVal.num 5⟩ 0 "d" ⟨[], [], []⟩ =
      Except.error JsError.typeError :=
  ⟨by decide,
   undocumented_services_throws ⟨none, none, none, none, JsVal.num 5⟩ 0 "d"
     ⟨[], [], []⟩ (by decide) (fun s h => JsVal.noConfusion h)
     (fun xs h => JsVal.noConfusion h)⟩

/-- C1 counterexample: at a tracked path whose Visit insert fails, the
middleware propagates the insert error instead of catching it, so the
request never reaches the next handler — refuting the claim that the insert
error is caught and logged and the request is still served. -/
theorem visit_insert_failure_not_caught :
    visitMiddleware ⟨"/", none, none, none⟩ 0 false ⟨[], [], []⟩ =
      Except.error DbError.insertFailed := rfl

/-- C1 amended: for every request to a tracked (non-admin, non-API) path, a
failure of the Visit insert propagates out of the middleware — the insert is
not guarded by a catch, so the request does not proceed to the next
handler. -/
theorem visit_insert_failure_propagates (req : Request) (today : Nat)
    (st : ServerState)
    (h1 : startsWithStr req.path "/admin" = false)
    (h2 : startsWithStr req.path "/api" = false) :
    visitMiddleware req today false st = Except.error DbError.insertFailed := by
  simp [visitMiddleware, h1, h2]

/-- Witness for the amended C1 at a concrete tracked path. -/
theorem visit_insert_failure_propagates_witness :
    visitMiddleware ⟨"/about", none, none, none⟩ 3 false ⟨[], [], []⟩ =
      Except.error DbError.insertFailed :=
  visit_insert_failure_propagates ⟨"/about", none, none, none⟩ 3 ⟨[], [], []⟩
    (by decide) (by decide)

/-- C3: on the documented services shapes (absent, single string, list of
strings, read as the corresponding list of selected services), the submit
handler succeeds and persists exactly one Submission row whose `services`
field is the list joined by `", "` and whose name, phone, email and message
fields are the submitted strings, defaulted to the empty string when absent —
never an absent-value marker.  In particular a payload with every text field
absent succeeds and stores empty strings. -/
theorem submit_normalization (body : SubmitBody) (now : Nat) (dateStr : String)
    (st : ServerState) (xs : List String)
    (hxs : servicesList body.services = some xs) :
    submitHandler body now dateStr st =
      Except.ok
        ({ st with submissions := st.submissions ++
            [{ name := orEmpty body.name
               phone := orEmpty body.phone
               email := orEmpty body.email
               services := String.intercalate ", " xs
               message := orEmpty body.message
               customer_number := customerNumber now
               submission_date := dateStr }] },
         { ok := true, customerNumber := customerNumber now,
           submissionDate := dateStr }) := by
  have hns : normalizeServices body.services =
      Except.ok (String.intercalate ", " xs) := by
    cases hv : body.services with
    | undef =>
      rw [hv] at hxs
      simp only [servicesList, Option.some.injEq] at hxs
      subst hxs
      rfl
    | str s =>
      rw [hv] at hxs
      simp only [servicesList, Option.some.injEq] at hxs
      subst hxs
      by_cases hs : s = ""
      · subst hs
        rfl
      · simp [normalizeServices, JsVal.truthy, hs]
    | arr ys =>
      rw [hv] at hxs
      simp only [servicesList, Option.some.injEq] at hxs
      subst hxs
      rfl
    | null => rw [hv] at hxs; simp [servicesList] at hxs
    | num n => rw [hv] at hxs; simp [servicesList] at hxs
    | boolean b => rw [hv] at hxs; simp [servicesList] at hxs
    | obj => rw [hv] at hxs; simp [servicesList] at hxs
  simp [submitHandler, hns]

/-- Witness for C3: `services: ["A","B"]` with all text fields absent stores
`"A, B"` and empty strings, and the request succeeds. -/
theorem submit_normalization_witness :
    servicesList (JsVal.arr ["A", "B"]) = some ["A", "B"] ∧
    submitHandler ⟨none, none, none, none, JsVal.arr ["A", "B"]⟩
        1700000000123 "d" ⟨[], [], []⟩ =
      Except.ok (⟨[⟨"", "", "", "A, B", "", "JN000123", "d"⟩], [], []⟩,
                 ⟨true, "JN000123", "d"⟩) :=
  ⟨rfl,
   submit_normalization ⟨none, none, none, none, JsVal.arr ["A", "B"]⟩
     1700000000123 "d" ⟨[], [], []⟩ ["A", "B"] rfl⟩

/-- Helper: `Nat.digitChar` of a remainder mod ten is a decimal digit. -/
theorem digitChar_mod_ten_isDigit (n : Nat) :
    (Nat.digitChar (n % 10)).isDigit = true := by
  have h : n % 10 < 10 := Nat.mod_lt _ (by decide)
  generalize hm : n % 10 = m at h ⊢
  interval_cases m <;> decide

/-- Helper: `Nat.toDigitsCore 10` pushes only decimal digits onto its
accumulator. -/
theorem toDigitsCore_ten_digits (f : Nat) :
    ∀ (n : Nat) (ds : List Char), (∀ c ∈ ds, c.isDigit = true) →
      ∀ c ∈ Nat.toDigitsCore 10 f n ds, c.isDigit = true := by
  induction f with
  | zero =>
    intro n ds h c hc
    simp only [Nat.toDigitsCore] at hc
    exact h c hc
  | succ f ih =>
    intro n ds h c hc
    simp only [Nat.toDigitsCore] at hc
    by_cases hdiv : n / 10 = 0
    · rw [if_pos hdiv] at hc
      rcases List.mem_cons.mp hc with rfl | hc
      · exact digitChar_mod_ten_isDigit n
      · exact h c hc
    · rw [if_neg hdiv] at hc
      refine ih (n / 10) _ ?_ c hc
      intro d hd
      rcases List.mem_cons.mp hd with rfl | hd
      · exact digitChar_mod_ten_isDigit n
      · exact h d hd

/-- Helper: `Nat.toDigitsCore` never shrinks its accumulator. -/
theorem toDigitsCore_length_le (f : Nat) :
    ∀ (n : Nat) (ds : List Char),
      ds.length ≤ (Nat.toDigitsCore 10 f n ds).length := by
  induction f with
  | zero =>
    intro n ds
    simp [Nat.toDigitsCore]
  | succ f ih =>
    intro n ds
    simp only [Nat.toDigitsCore]
    by_cases hdiv : n / 10 = 0
    · rw [if_pos hdiv]
      exact Nat.le_succ _
    · rw [if_neg hdiv]
      calc ds.length ≤ (Nat.digitChar (n % 10) :: ds).length := Nat.le_succ _
        _ ≤ _ := ih (n / 10) _

/-- Helper: the decimal representation of a natural number is nonempty. -/
theorem one_le_length_toString (n : Nat) :
    1 ≤ (toString n).data.length := by
  show 1 ≤ (Nat.toDigitsCore 10 (n + 1) n []).length
  simp only [Nat.toDigitsCore]
  by_cases hdiv : n / 10 = 0
  · rw [if_pos hdiv]
    simp
  · rw [if_neg hdiv]
    have h := toDigitsCore_length_le n (n / 10) [Nat.digitChar (n % 10)]
    simpa using h

/-- Helper: every character of the decimal representation of a natural
number is a digit. -/
theorem toString_nat_digits (n : Nat) :
    ∀ c ∈ (toString n).data, c.isDigit = true := by
  intro c hc
  have hc' : c ∈ Nat.toDigitsCore 10 (n + 1) n [] := hc
  exact toDigitsCore_ten_digits (n + 1) n []
    (by intro d hd; cases hd) c hc'

/-- Helper: `lastSix` keeps between one and six characters of a nonempty
string. -/
theorem lastSix_length (s : String) (h1 : 1 ≤ s.data.length) :
    1 ≤ (lastSix s).data.length ∧ (lastSix s).data.length ≤ 6 := by
  unfold lastSix
  simp only [List.length_drop]
  omega

/-- Helper: `lastSix` of a string shorter than six characters is the whole
string. -/
theorem lastSix_of_short (s : String) (h : s.data.length < 6) :
    lastSix s = s := by
  unfold lastSix
  have h0 : s.data.length - 6 = 0 := by omega
  rw [h0, List.drop_zero]

/-- C2: every successful submit response carries (and stores) a customer
reference equal to `"JN"` followed by the last six decimal digits of the
millisecond timestamp `now` read during the request (all available digits,
without padding, when the decimal representation is shorter than six
characters); the digit part has one to six characters, all decimal digits;
and the timestamp is no earlier than the request start. -/
theorem customer_reference_format (body : SubmitBody) (reqStart now : Nat)
    (dateStr : String) (st st' : ServerState) (resp : SubmitResponse)
    (hstart : reqStart ≤ now)
    (hok : submitHandler body now dateStr st = Except.ok (st', resp)) :
    resp.customerNumber = customerNumber now ∧
    customerNumber now = "JN" ++ lastSix (toString now) ∧
    1 ≤ (lastSix (toString now)).data.length ∧
    (lastSix (toString now)).data.length ≤ 6 ∧
    (∀ c ∈ (lastSix (toString now)).data, c.isDigit = true) ∧
    ((toString now).data.length < 6 → lastSix (toString now) = toString now) ∧
    (∃ sub, st'.submissions = st.submissions ++ [sub] ∧
      sub.customer_number = resp.customerNumber) ∧
    reqStart ≤ now := by
  have hlen := lastSix_length (toString now) (one_le_length_toString now)
  cases hns : normalizeServices body.services with
  | error e =>
    rw [submitHandler, hns] at hok
    cases hok
  | ok csv =>
    rw [submitHandler, hns] at hok
    rw [Except.ok.injEq, Prod.mk.injEq] at hok
    obtain ⟨hst, hresp⟩ := hok
    subst hst
    subst hresp
    refine ⟨rfl, rfl, hlen.1, hlen.2, ?_, lastSix_of_short (toString now), ?_, hstart⟩
    · intro c hc
      have hmem : c ∈ (toString now).data := by
        unfold lastSix at hc
        exact List.mem_of_mem_drop hc
      exact toString_nat_digits now c hmem
    · exact ⟨_, rfl, rfl⟩

/-- Witness for C2: at timestamp 1700000000123 the reference is
`"JN000123"`, six digits long. -/
theorem customer_reference_format_witness :
    1 ≤ (lastSix (toString (1700000000123 : Nat))).data.length ∧
    (lastSix (toString (1700000000123 : Nat))).data.length ≤ 6 ∧
    customerNumber 1700000000123 =
      "JN" ++ lastSix (toString (1700000000123 : Nat)) := by
  have h := customer_reference_format ⟨none, none, none, none, JsVal.undef⟩
    1700000000123 1700000000123 "d" ⟨[], [], []⟩
    ⟨[⟨"", "", "", "", "", "JN000123", "d"⟩], [], []⟩ ⟨true, "JN000123", "d"⟩
    (Nat.le_refl _) rfl
  exact ⟨h.2.2.1, h.2.2.2.1, h.2.1⟩

/-- Helper: the day-descending comparison used by the byDay query is
transitive. -/
theorem dayLe_trans (a b c : Nat) :
    decide (b ≤ a) = true → decide (c ≤ b) = true → decide (c ≤ a) = true := by
  intro h1 h2
  simp only [decide_eq_true_eq] at *
  omega

/-- Helper: the day-descending comparison is total. -/
theorem dayLe_total (a b : Nat) :
    (decide (b ≤ a) || decide (a ≤ b)) = true := by
  rcases Nat.le_total a b with h | h <;> simp [h]

/-- Helper: the count-descending comparison used by the byPath query is
transitive. -/
theorem countLe_trans (a b c : String × Nat) :
    decide (b.2 ≤ a.2) = true → decide (c.2 ≤ b.2) = true →
      decide (c.2 ≤ a.2) = true := by
  intro h1 h2
  simp only [decide_eq_true_eq] at *
  omega

/-- Helper: the count-descending comparison is total. -/
theorem countLe_total (a b : String × Nat) :
    (decide (b.2 ≤ a.2) || decide (a.2 ≤ b.2)) = true := by
  rcases Nat.le_total a.2 b.2 with h | h <;> simp [h]

/-- C7: the stats endpoint's `byDay` has at most 30 entries, at most one per
distinct visit calendar date, sorted descending by date, each entry carrying
that date's visit count, and complete (one entry for every distinct date)
whenever there are at most 30 distinct dates; `byPath` has exactly one entry
per distinct visit path, carrying that path's count, sorted descending by
count; `total` is the number of all recorded Visit rows; and `today` is the
number of Visit rows dated the server's current date. -/
theorem stats_contract (vs : List Visit) (nowDay : Nat) :
    (statsHandler vs nowDay).byDay.length ≤ 30 ∧
    ((statsHandler vs nowDay).byDay.map Prod.fst).Nodup ∧
    List.Pairwise (fun a b => b.1 ≤ a.1) (statsHandler vs nowDay).byDay ∧
    (∀ e ∈ (statsHandler vs nowDay).byDay,
      e.1 ∈ vs.map Visit.day ∧ e.2 = countDay vs e.1) ∧
    ((vs.map Visit.day).dedup.length ≤ 30 →
      ∀ d ∈ vs.map Visit.day, ∃ c, (d, c) ∈ (statsHandler vs nowDay).byDay) ∧
    ((statsHandler vs nowDay).byPath.map Prod.fst).Perm
      (vs.map Visit.path).dedup ∧
    (∀ e ∈ (statsHandler vs nowDay).byPath, e.2 = countPath vs e.1) ∧
    List.Pairwise (fun a b => b.2 ≤ a.2) (statsHandler vs nowDay).byPath ∧
    (statsHandler vs nowDay).total = vs.length ∧
    (statsHandler vs nowDay).today = countDay vs nowDay := by
  have hsorted : List.Pairwise (fun a b => decide (b ≤ a) = true)
      (((vs.map Visit.day).dedup).mergeSort (fun a b => decide (b ≤ a))) :=
    List.sorted_mergeSort dayLe_trans dayLe_total _
  have hperm := List.mergeSort_perm ((vs.map Visit.day).dedup)
    (fun a b => decide (b ≤ a))
  refine ⟨?_, ?_, ?_, ?_, ?_, ?_, ?_, ?_, rfl, rfl⟩
  · show (byDayQuery vs).length ≤ 30
    simp only [byDayQuery, List.length_map, List.length_take]
    exact Nat.min_le_left _ _
  · show ((byDayQuery vs).map Prod.fst).Nodup
    have hnd : (((vs.map Visit.day).dedup).mergeSort
        (fun a b => decide (b ≤ a))).Nodup :=
      hperm.nodup_iff.mpr (List.nodup_dedup _)
    have htake := List.Nodup.sublist (List.take_sublist 30 _) hnd
    simpa [byDayQuery, List.map_map, Function.comp_def] using htake
  · show List.Pairwise (fun a b => b.1 ≤ a.1) (byDayQuery vs)
    have htake := List.Pairwise.sublist (List.take_sublist 30 _) hsorted
    refine List.Pairwise.map _ ?_ htake
    intro a b h
    simpa using h
  · intro e he
    simp only [statsHandler] at he
    obtain ⟨d, hd, rfl⟩ := List.mem_map.mp he
    refine ⟨?_, rfl⟩
    have hd' : d ∈ ((vs.map Visit.day).dedup).mergeSort
        (fun a b => decide (b ≤ a)) := List.mem_of_mem_take hd
    exact List.mem_dedup.mp (hperm.mem_iff.mp hd')
  · intro h30 d hd
    refine ⟨countDay vs d, ?_⟩
    show (d, countDay vs d) ∈ byDayQuery vs
    have hlen : (((vs.map Visit.day).dedup).mergeSort
        (fun a b => decide (b ≤ a))).length ≤ 30 := by
      rw [hperm.length_eq]
      exact h30
    unfold byDayQuery
    rw [List.take_of_length_le hlen]
    refine List.mem_map.mpr ⟨d, ?_, rfl⟩
    exact hperm.mem_iff.mpr (List.mem_dedup.mpr hd)
  · show ((byPathQuery vs).map Prod.fst).Perm (vs.map Visit.path).dedup
    have h := (List.mergeSort_perm
      (((vs.map Visit.path).dedup).map (fun p => (p, countPath vs p)))
      (fun a b => decide (b.2 ≤ a.2))).map Prod.fst
    simpa [byPathQuery, List.map_map, Function.comp_def] using h
  · intro e he
    simp only [statsHandler, byPathQuery] at he
    have he' := (List.mergeSort_perm _ _).mem_iff.mp he
    obtain ⟨p, hp, rfl⟩ := List.mem_map.mp he'
    rfl
  · show List.Pairwise (fun a b => b.2 ≤ a.2) (byPathQuery vs)
    have h := List.sorted_mergeSort countLe_trans countLe_total
      (((vs.map Visit.path).dedup).map (fun p => (p, countPath vs p)))
    refine List.Pairwise.imp ?_ h
    intro a b hab
    simpa using hab

/-- Witness for C7 on a one-visit log: the list bounds hold and the single
visit date is represented in `byDay`. -/
theorem stats_contract_witness :
    (statsHandler [⟨"ip", "ua", "/", 3⟩] 3).byDay.length ≤ 30 ∧
    (∃ c, ((3 : Nat), c) ∈ (statsHandler [⟨"ip", "ua", "/", 3⟩] 3).byDay) ∧
    (statsHandler [⟨"ip", "ua", "/", 3⟩] 3).total = 1 :=
  ⟨(stats_contract [⟨"ip", "ua", "/", 3⟩] 3).1,
   (stats_contract [⟨"ip", "ua", "/", 3⟩] 3).2.2.2.2.1 (by decide) 3 (by decide),
   (stats_contract [⟨"ip", "ua", "/", 3⟩] 3).2.2.2.2.2.2.2.2.1⟩

end Javanevisan
